import Mathlib

/-!
Verification of the satcom-code encrypted datastore core
(internal/datastore/filestore.go and its collaborators).

The Go module's state and operations are shallowly embedded as pure Lean
functions.  Global mutable state (satellitesData, passphraseProvided,
sessionKey) becomes an explicit `DSState` record threaded through each
operation; the filesystem becomes an explicit `FS` record; randomness
(salt, nonce) and the passphrase provider become explicit environment
records.  Byte strings are modelled as `List Nat`.  Go float64 fields are
modelled by their 64-bit patterns as `Nat` (the claims never interpret
them numerically).  Fallible Go calls return `Except`/`Option`.
-/

/-- Satellite record, translated field by field from types/satellite.go.
float64 fields are carried as their 64-bit machine representation (a Nat);
the store treats records as opaque payloads. -/
structure Satellite where
  Name             : String
  OrbitType        : String
  Altitude         : Nat
  Eccentricity     : Nat
  Inclination      : Nat
  PowerSystem      : String
  Communication    : String
  Size             : Nat
  Weight           : Nat
  Constellation    : Bool
  RemoteSensing    : String
  LaunchDate       : String
  Operator         : String
  MissionObjective : String
  Status           : String
deriving DecidableEq

/-- The in-memory collection `map[string]types.Satellite`, modelled as the
canonical association list sorted strictly by key (a Go map is a finite map;
the sorted list is its canonical representative). -/
abbrev Collection := List (String × Satellite)

/-- Lookup in the collection (Go map read `m[name]`). -/
def mapGet (name : String) : Collection → Option Satellite
  | [] => none
  | (k, v) :: rest => if k = name then some v else mapGet name rest

/-- Upsert into the collection (Go map write `m[sat.Name] = sat`), keeping
the canonical sorted-by-key form. -/
def mapInsert (sat : Satellite) : Collection → Collection
  | [] => [(sat.Name, sat)]
  | (k, v) :: rest =>
    if sat.Name < k then (sat.Name, sat) :: (k, v) :: rest
    else if sat.Name = k then (sat.Name, sat) :: rest
    else (k, v) :: mapInsert sat rest

/-- Removal from the collection (Go `delete(m, name)`). -/
def mapDelete (name : String) (c : Collection) : Collection :=
  c.filter (fun p => p.1 != name)

/-- The keys of a collection. -/
def keys (c : Collection) : List String := c.map Prod.fst

/-- Boolean: `k` is strictly below every key of `c`. -/
def ltAll (k : String) (c : Collection) : Bool :=
  c.all (fun p => decide (k < p.1))

/-- Boolean representation invariant: keys strictly increasing (hence
unique) — the canonical form of a Go map. -/
def sortedKeys : Collection → Bool
  | [] => true
  | p :: rest => ltAll p.1 rest && sortedKeys rest

/-! ## Serialization

Modelled from the spec: the repository serializes the collection with
`encoding/json` (`json.MarshalIndent` / `json.Unmarshal`), an external
library; per the spec the collection "serializes to/from a canonical byte
encoding ... as an atomic unit".  We model that canonical encoding as a
token stream (one `Nat` per scalar), with a decoder that is its exact
inverse on encoder output. -/

/-- Encode a string: its length followed by its characters' code points. -/
def encStr (s : String) : List Nat :=
  s.length :: s.data.map Char.toNat

/-- Decode a string from the head of a token stream. -/
def decStr : List Nat → Option (String × List Nat)
  | [] => none
  | n :: rest =>
    if n ≤ rest.length then
      some (String.mk ((rest.take n).map Char.ofNat), rest.drop n)
    else none

/-- Encode a Nat scalar. -/
def encNat (n : Nat) : List Nat := [n]

/-- Decode a Nat scalar. -/
def decNat : List Nat → Option (Nat × List Nat)
  | [] => none
  | n :: rest => some (n, rest)

/-- Encode a Bool scalar. -/
def encBool (b : Bool) : List Nat := [if b then 1 else 0]

/-- Decode a Bool scalar. -/
def decBool : List Nat → Option (Bool × List Nat)
  | [] => none
  | n :: rest =>
    if n = 1 then some (true, rest)
    else if n = 0 then some (false, rest)
    else none

/-- Encode a Satellite record, fields in declaration order. -/
def encSat (s : Satellite) : List Nat :=
  encStr s.Name ++ encStr s.OrbitType ++ encNat s.Altitude ++
  encNat s.Eccentricity ++ encNat s.Inclination ++ encStr s.PowerSystem ++
  encStr s.Communication ++ encNat s.Size ++ encNat s.Weight ++
  encBool s.Constellation ++ encStr s.RemoteSensing ++ encStr s.LaunchDate ++
  encStr s.Operator ++ encStr s.MissionObjective ++ encStr s.Status

/-- Decode fields 1-5 (Name, OrbitType, Altitude, Eccentricity,
Inclination). -/
def decSatA (l : List Nat) :
    Option ((String × String × Nat × Nat × Nat) × List Nat) :=
  (decStr l).bind fun p1 =>
  (decStr p1.2).bind fun p2 =>
  (decNat p2.2).bind fun p3 =>
  (decNat p3.2).bind fun p4 =>
  (decNat p4.2).bind fun p5 =>
  some ((p1.1, p2.1, p3.1, p4.1, p5.1), p5.2)

/-- Decode fields 6-10 (PowerSystem, Communication, Size, Weight,
Constellation). -/
def decSatB (l : List Nat) :
    Option ((String × String × Nat × Nat × Bool) × List Nat) :=
  (decStr l).bind fun p1 =>
  (decStr p1.2).bind fun p2 =>
  (decNat p2.2).bind fun p3 =>
  (decNat p3.2).bind fun p4 =>
  (decBool p4.2).bind fun p5 =>
  some ((p1.1, p2.1, p3.1, p4.1, p5.1), p5.2)

/-- Decode fields 11-15 (RemoteSensing, LaunchDate, Operator,
MissionObjective, Status). -/
def decSatC (l : List Nat) :
    Option ((String × String × String × String × String) × List Nat) :=
  (decStr l).bind fun p1 =>
  (decStr p1.2).bind fun p2 =>
  (decStr p2.2).bind fun p3 =>
  (decStr p3.2).bind fun p4 =>
  (decStr p4.2).bind fun p5 =>
  some ((p1.1, p2.1, p3.1, p4.1, p5.1), p5.2)

/-- Decode a Satellite record, fields in declaration order. -/
def decSat (l : List Nat) : Option (Satellite × List Nat) :=
  (decSatA l).bind fun a =>
  (decSatB a.2).bind fun b =>
  (decSatC b.2).bind fun c =>
  some (⟨a.1.1, a.1.2.1, a.1.2.2.1, a.1.2.2.2.1, a.1.2.2.2.2,
         b.1.1, b.1.2.1, b.1.2.2.1, b.1.2.2.2.1, b.1.2.2.2.2,
         c.1.1, c.1.2.1, c.1.2.2.1, c.1.2.2.2.1, c.1.2.2.2.2⟩, c.2)

/-- Encode one (key, record) entry. -/
def encPair (p : String × Satellite) : List Nat :=
  encStr p.1 ++ encSat p.2

/-- Encode the entries of a collection, in canonical (sorted) order, as the
Go `json.Marshal` of a map emits keys sorted. -/
def marshalList : Collection → List Nat
  | [] => []
  | p :: rest => encPair p ++ marshalList rest

/-- Serialize the whole collection: entry count, then the entries. -/
def marshal (c : Collection) : List Nat :=
  c.length :: marshalList c

/-- Decode exactly `n` entries. -/
def decPairs : Nat → List Nat → Option (Collection × List Nat)
  | 0, l => some ([], l)
  | n + 1, l =>
    (decStr l).bind fun pk =>
    (decSat pk.2).bind fun ps =>
    (decPairs n ps.2).bind fun pr =>
    some ((pk.1, ps.1) :: pr.1, pr.2)

/-- Deserialize a collection; the whole payload must be consumed
(a JSON document with trailing or missing data is invalid). -/
def unmarshal (l : List Nat) : Option Collection :=
  match l with
  | [] => none
  | n :: rest =>
    match decPairs n rest with
    | some (c, []) => some c
    | _ => none

/-! ## Crypto primitives

Modelled from the spec: the repository's internal/crypto package
(DeriveKeyWithArgon2id, Encrypt, Decrypt) and internal/config constants
(Argon2SaltSize, AESGCMNonceSize) are declared and called from the source
but their files are not present; they are modelled from §4.1/§4.2/§6 of
the spec.  The model captures determinism of derivation, the
`nonce ‖ ciphertext ‖ tag` framing, and tag verification before releasing
plaintext; it does not (and could not, in a shallow embedding) capture
computational secrecy. -/

/-- Modelled from the spec: fixed salt length written as the file prefix
(Argon2 standard salt size). -/
def Argon2SaltSize : Nat := 16

/-- Modelled from the spec: fixed AES-GCM nonce length. -/
def AESGCMNonceSize : Nat := 12

/-- Modelled from the spec: fixed AES-GCM authentication tag length. -/
def AESGCMTagSize : Nat := 16

/-- Modelled from the spec: the key produced by the memory-hard KDF for a
(passphrase, salt) pair — deterministic, fixed length 32. -/
def argonKey (pass : String) (salt : List Nat) : List Nat :=
  (List.range 32).map
    (fun i => (i + (pass.data.map Char.toNat).sum + salt.sum) % 256)

/-- Modelled from the spec: `derive(passphrase, salt) -> key`, deterministic,
failing only on internal parameter misconfiguration (never on data, so the
model always succeeds; the callers' error branches remain in place). -/
def DeriveKeyWithArgon2id (pass : String) (salt : List Nat) :
    Except String (List Nat) :=
  .ok (argonKey pass salt)

/-- Modelled from the spec: the authentication tag over (key, nonce,
plaintext). -/
def gcmTag (key nonce pt : List Nat) : List Nat :=
  (List.range AESGCMTagSize).map
    (fun i => (i + key.sum + nonce.sum + pt.sum + pt.length) % 256)

/-- Modelled from the spec: AEAD encryption returning
`nonce ‖ ciphertext ‖ tag`; the nonce, generated freshly inside the Go
function, is passed explicitly as the randomness consumed by the call. -/
def Encrypt (pt key nonce : List Nat) : Except String (List Nat) :=
  .ok (nonce ++ pt ++ gcmTag key nonce pt)

/-- Modelled from the spec: AEAD decryption — split the nonce, verify the
tag before releasing any plaintext, and fail with a single
wrong-passphrase-or-tampering error kind otherwise.  The error message is
modelled from the source comment that `Decrypt already provides a good
error message (passphrase/integrity)`. -/
def Decrypt (nc key : List Nat) : Except String (List Nat) :=
  if nc.length < AESGCMNonceSize + AESGCMTagSize then
    .error "failed to decrypt data: ciphertext too short"
  else
    let nonce := nc.take AESGCMNonceSize
    let rest := nc.drop AESGCMNonceSize
    let pt := rest.take (rest.length - AESGCMTagSize)
    let tag := rest.drop (rest.length - AESGCMTagSize)
    if tag = gcmTag key nonce pt then .ok pt
    else .error "failed to decrypt data: incorrect passphrase or data tampering"

/-! ## Session state and gated operations (filestore.go) -/

/-- The package-level mutable state of internal/datastore/filestore.go:
`satellitesData`, `passphraseProvided`, `sessionKey` (a nil Go byte slice
is the empty list). -/
structure DSState where
  satellitesData     : Collection
  passphraseProvided : Bool
  sessionKey         : List Nat
deriving DecidableEq

/-- IsUnlocked (filestore.go lines 92-95):
`passphraseProvided && len(sessionKey) > 0`. -/
def IsUnlocked (st : DSState) : Bool :=
  st.passphraseProvided && decide (0 < st.sessionKey.length)

/-- The error kinds of the gated collection operations. -/
inductive OpError
  | locked
  | notFound (name : String)
deriving DecidableEq

/-- GetSatellites (filestore.go lines 98-110): fails when locked, else
returns a snapshot copy of the collection (copying is the identity on
immutable values). -/
def GetSatellites (st : DSState) : Except OpError Collection :=
  if ¬ IsUnlocked st then .error .locked
  else .ok st.satellitesData

/-- AddSatellite (filestore.go lines 112-122): fails when locked, else
upserts under `sat.Name`. -/
def AddSatellite (sat : Satellite) (st : DSState) : DSState × Option OpError :=
  if ¬ IsUnlocked st then (st, some .locked)
  else ({ st with satellitesData := mapInsert sat st.satellitesData }, none)

/-- DeleteSatellite (filestore.go lines 124-137): fails when locked; fails
with not-found when the name is absent; else removes the entry. -/
def DeleteSatellite (name : String) (st : DSState) : DSState × Option OpError :=
  if ¬ IsUnlocked st then (st, some .locked)
  else if (mapGet name st.satellitesData).isNone then
    (st, some (.notFound name))
  else
    ({ st with satellitesData := mapDelete name st.satellitesData }, none)

/-! ## Load protocol (filestore.go `load`, lines 141-218) -/

/-- The environment a single `load` call consumes: the persisted file
(`none` = os.Stat reports it does not exist), whether `ioutil.ReadFile`
succeeds, and the result of the opaque passphrase provider
(`getPassphrase`). -/
structure LoadEnv where
  file   : Option (List Nat)
  readOk : Bool
  pass   : Except String String

/-- The distinct error returns of `load`, one constructor per source
return site. -/
inductive LoadError
  | passAcq
  | passEmpty
  | readFailed
  | corruptShort
  | keyDerivation
  | decryptFailed
  | unmarshalFailed
deriving DecidableEq

/-- The static text of each error's message (the Go source formats these
with `fmt.Errorf`; dynamic `%s`/`%w` parts are elided — `Init` only
inspects messages for fixed substrings).  The `decryptFailed` message is
the modelled `crypto.Decrypt` message (see `Decrypt`). -/
def loadErrorMsg : LoadError → String
  | .passAcq => "passphrase acquisition failed for existing datastore: "
  | .passEmpty => "passphrase not provided for existing datastore "
  | .readFailed => "failed to read encrypted datastore : "
  | .corruptShort =>
      "encrypted datastore file is too short or corrupted (salt+nonce sections missing)"
  | .keyDerivation => "key derivation failed during load: "
  | .decryptFailed =>
      "failed to decrypt data: incorrect passphrase or data tampering"
  | .unmarshalFailed =>
      "failed to unmarshal decrypted satellite data:  (data may be corrupt)"

/-- Crypto calls observed during a `load`/`Save` pass, recorded at the
exact source call sites, so that claims about operations happening
"before any derivation/decryption" are statable. -/
inductive CryptoEvent
  | derive (pass : String) (salt : List Nat)
  | decryptAttempt (data key : List Nat)
  | encryptCall (pt key nonce : List Nat)
deriving DecidableEq

/-- Result of one `load` call: the new global state, the returned error
(if any), and the crypto calls made. -/
structure LoadResult where
  state  : DSState
  err    : Option LoadError
  events : List CryptoEvent
deriving DecidableEq

/-- load (filestore.go lines 141-218), translated branch by branch. -/
def load (env : LoadEnv) (st : DSState) : LoadResult :=
  let fileExists := env.file.isSome
  match env.pass with
  | .error _ =>
    if fileExists then
      ⟨{ st with passphraseProvided := false, sessionKey := [] },
        some .passAcq, []⟩
    else
      ⟨{ st with
          passphraseProvided := false
          sessionKey := []
          satellitesData := [] }, none, []⟩
  | .ok currentPassphrase =>
    if currentPassphrase = "" then
      if fileExists then
        ⟨{ st with passphraseProvided := false, sessionKey := [] },
          some .passEmpty, []⟩
      else
        ⟨{ st with
            passphraseProvided := false
            sessionKey := []
            satellitesData := [] }, none, []⟩
    else
      -- source line 168: passphraseProvided = true
      let st1 := { st with passphraseProvided := true }
      match env.file with
      | none =>
        -- file does not exist: empty collection, no key derived yet
        ⟨{ st1 with satellitesData := [], sessionKey := [] }, none, []⟩
      | some encryptedFileBytes =>
        if ¬ env.readOk then
          ⟨{ st1 with passphraseProvided := false, sessionKey := [] },
            some .readFailed, []⟩
        else if encryptedFileBytes.length < Argon2SaltSize + AESGCMNonceSize then
          ⟨{ st1 with passphraseProvided := false, sessionKey := [] },
            some .corruptShort, []⟩
        else
          let salt := encryptedFileBytes.take Argon2SaltSize
          let nonceAndCiphertext := encryptedFileBytes.drop Argon2SaltSize
          match DeriveKeyWithArgon2id currentPassphrase salt with
          | .error _ =>
            ⟨{ st1 with passphraseProvided := false, sessionKey := [] },
              some .keyDerivation, [.derive currentPassphrase salt]⟩
          | .ok key =>
            match Decrypt nonceAndCiphertext key with
            | .error _ =>
              ⟨{ st1 with passphraseProvided := false, sessionKey := [] },
                some .decryptFailed,
                [.derive currentPassphrase salt,
                 .decryptAttempt nonceAndCiphertext key]⟩
            | .ok plaintext =>
              -- source line 206: sessionKey = key before unmarshalling
              match unmarshal plaintext with
              | none =>
                ⟨{ st1 with passphraseProvided := false, sessionKey := [] },
                  some .unmarshalFailed,
                  [.derive currentPassphrase salt,
                   .decryptAttempt nonceAndCiphertext key]⟩
              | some m =>
                ⟨{ st1 with sessionKey := key, satellitesData := m },
                  none,
                  [.derive currentPassphrase salt,
                   .decryptAttempt nonceAndCiphertext key]⟩

/-! ## Init (filestore.go lines 61-90) -/

/-- Boolean: `needle` is a leading segment of `hay`. -/
def leadsWith : List Char → List Char → Bool
  | [], _ => true
  | _ :: _, [] => false
  | a :: as, b :: bs => a = b && leadsWith as bs

/-- Boolean substring containment over char lists. -/
def containsSub : List Char → List Char → Bool
  | hay, needle =>
    match hay with
    | [] => needle.isEmpty
    | _ :: t => leadsWith needle hay || containsSub t needle

/-- Go `strings.Contains s sub`. -/
def strContains (s sub : String) : Bool :=
  containsSub s.data sub.data

/-- The substring the Init error filter looks for first. -/
def kwPassphrase : String := "passphrase"

/-- The second substring the Init error filter looks for. -/
def kwDecrypt : String := "decrypt"

/-- Init (filestore.go lines 61-90): runs `load`; a load error whose
message contains "passphrase" or "decrypt" is downgraded to a warning plus
a locked state; every other load error propagates (is fatal to Init).
None of load's errors satisfies Go's `os.IsNotExist` (they are all
`fmt.Errorf`-wrapped, which that legacy predicate does not unwrap), so
that branch is never taken and is omitted.  Path resolution
(os.Executable) is out of scope of the claims. -/
def Init (env : LoadEnv) (st : DSState) : LoadResult :=
  let r := load env st
  match r.err with
  | none => r
  | some e =>
    if strContains (loadErrorMsg e) kwPassphrase ||
       strContains (loadErrorMsg e) kwDecrypt then
      ⟨{ r.state with passphraseProvided := false, sessionKey := [] },
        none, r.events⟩
    else
      ⟨r.state, some e, r.events⟩

/-! ## Save protocol (filestore.go `Save`, lines 221-299) -/

/-- The filesystem as Save sees it: the target data file and its
temporary sibling. -/
structure FS where
  target : Option (List Nat)
  temp   : Option (List Nat)
deriving DecidableEq

/-- The environment a single `Save` call consumes: the provider results
for the two possible re-prompts, the passphrase environment variable, the
freshly drawn salt and nonce randomness, and the success of the write and
rename syscalls. -/
structure SaveEnv where
  retryPass    : Except String String
  envPass      : String
  repromptPass : Except String String
  saltOk       : Bool
  salt         : List Nat
  nonce        : List Nat
  writeOk      : Bool
  renameOk     : Bool

/-- The distinct error returns of `Save`, one constructor per source
return site. -/
inductive SaveError
  | passRequired
  | passReconfirm
  | saltGenFailed
  | keyDerive
  | encryptFailed
  | writeTemp
  | renamePersist
deriving DecidableEq

/-- Result of one `Save` call. -/
structure SaveResult where
  state  : DSState
  fs     : FS
  err    : Option SaveError
  events : List CryptoEvent
deriving DecidableEq

/-- Save (filestore.go lines 221-299), translated branch by branch.
`json.MarshalIndent` of this map type cannot fail in Go, so the marshal
error branch is unreachable and `marshal` is total. -/
def Save (env : SaveEnv) (st : DSState) (fs : FS) : SaveResult :=
  -- lines 225-238: re-solicit a passphrase when none was provided;
  -- the obtained value is only used to flip passphraseProvided
  let step1 : Except SaveError DSState :=
    if ¬ st.passphraseProvided then
      match env.retryPass with
      | .error _ => .error .passRequired
      | .ok p =>
        if p = "" then .error .passRequired
        else .ok { st with passphraseProvided := true }
    else .ok st
  match step1 with
  | .error e => ⟨st, fs, some e, []⟩
  | .ok st1 =>
    -- lines 240-255: the passphrase actually used for this save comes
    -- from the environment variable, else from a fresh re-prompt
    let passResult : Except SaveError String :=
      if env.envPass ≠ "" then .ok env.envPass
      else
        match env.repromptPass with
        | .error _ => .error .passReconfirm
        | .ok p => if p = "" then .error .passReconfirm else .ok p
    match passResult with
    | .error e => ⟨st1, fs, some e, []⟩
    | .ok currentPassphrase =>
      let plaintext := marshal st1.satellitesData
      -- lines 263-267: always generate a new salt for each save
      if ¬ env.saltOk then ⟨st1, fs, some .saltGenFailed, []⟩
      else
        let salt := env.salt
        match DeriveKeyWithArgon2id currentPassphrase salt with
        | .error _ =>
          ⟨st1, fs, some .keyDerive, [.derive currentPassphrase salt]⟩
        | .ok keyForSave =>
          -- line 275: update the session key before encrypting
          let st2 := { st1 with sessionKey := keyForSave }
          match Encrypt plaintext keyForSave env.nonce with
          | .error _ =>
            ⟨st2, fs, some .encryptFailed,
              [.derive currentPassphrase salt,
               .encryptCall plaintext keyForSave env.nonce]⟩
          | .ok nonceAndCiphertext =>
            let encryptedFileBytes := salt ++ nonceAndCiphertext
            let evs := [CryptoEvent.derive currentPassphrase salt,
                        CryptoEvent.encryptCall plaintext keyForSave env.nonce]
            if ¬ env.writeOk then ⟨st2, fs, some .writeTemp, evs⟩
            else
              let fs1 : FS := { fs with temp := some encryptedFileBytes }
              if env.renameOk then
                ⟨st2, ⟨some encryptedFileBytes, none⟩, none, evs⟩
              else
                -- lines 293-297: rename failed: remove the temp file,
                -- leave the target untouched
                ⟨st2, { fs1 with temp := none }, some .renamePersist, evs⟩

/-! ## Helper lemmas: serialization round trip -/

theorem map_ofNat_toNat : ∀ l : List Char, (l.map Char.toNat).map Char.ofNat = l
  | [] => rfl
  | c :: t => by simp [map_ofNat_toNat t, Char.ofNat_toNat]

theorem decStr_encStr (s : String) (r : List Nat) :
    decStr (encStr s ++ r) = some (s, r) := by
  have hlen : (s.data.map Char.toNat).length = s.length := by
    rw [List.length_map]; rfl
  have hle : s.length ≤ (s.data.map Char.toNat ++ r).length := by
    rw [List.length_append, hlen]
    exact Nat.le_add_right ..
  simp only [encStr, List.cons_append, decStr]
  rw [if_pos hle, List.take_left' hlen, List.drop_left' hlen, map_ofNat_toNat]

theorem decNat_encNat (n : Nat) (r : List Nat) :
    decNat (encNat n ++ r) = some (n, r) := rfl

theorem decBool_encBool (b : Bool) (r : List Nat) :
    decBool (encBool b ++ r) = some (b, r) := by
  cases b <;> simp [encBool, decBool]

theorem decSatA_enc (a b : String) (c d e : Nat) (r : List Nat) :
    decSatA (encStr a ++ (encStr b ++ (encNat c ++ (encNat d ++
        (encNat e ++ r))))) = some ((a, b, c, d, e), r) := by
  simp only [decSatA, decStr_encStr, decNat_encNat, Option.some_bind]

theorem decSatB_enc (a b : String) (c d : Nat) (e : Bool) (r : List Nat) :
    decSatB (encStr a ++ (encStr b ++ (encNat c ++ (encNat d ++
        (encBool e ++ r))))) = some ((a, b, c, d, e), r) := by
  simp only [decSatB, decStr_encStr, decNat_encNat, decBool_encBool,
    Option.some_bind]

theorem decSatC_enc (a b c d e : String) (r : List Nat) :
    decSatC (encStr a ++ (encStr b ++ (encStr c ++ (encStr d ++
        (encStr e ++ r))))) = some ((a, b, c, d, e), r) := by
  simp only [decSatC, decStr_encStr, Option.some_bind]

theorem decSat_encSat (s : Satellite) (r : List Nat) :
    decSat (encSat s ++ r) = some (s, r) := by
  simp only [encSat, decSat, List.append_assoc, decSatA_enc, decSatB_enc,
    decSatC_enc, Option.some_bind]

theorem decPairs_marshalList :
    ∀ (c : Collection) (r : List Nat),
      decPairs c.length (marshalList c ++ r) = some (c, r)
  | [], r => rfl
  | p :: rest, r => by
    obtain ⟨k, s⟩ := p
    have ih := decPairs_marshalList rest r
    simp only [marshalList, List.length_cons, encPair, List.append_assoc,
      decPairs, decStr_encStr, decSat_encSat, ih, Option.some_bind]

theorem unmarshal_marshal (c : Collection) : unmarshal (marshal c) = some c := by
  have h := decPairs_marshalList c []
  rw [List.append_nil] at h
  show (match decPairs c.length (marshalList c) with
        | some (c2, []) => some c2
        | _ => none) = some c
  rw [h]

/-! ## Helper lemmas: cipher round trip -/

theorem gcmTag_length (key nonce pt : List Nat) :
    (gcmTag key nonce pt).length = AESGCMTagSize := by
  simp [gcmTag, List.length_map, List.length_range]

theorem decrypt_encrypt (pt key nonce : List Nat)
    (h : nonce.length = AESGCMNonceSize) :
    Decrypt (nonce ++ pt ++ gcmTag key nonce pt) key = .ok pt := by
  have htag := gcmTag_length key nonce pt
  have hnotlt : ¬ ((nonce ++ pt ++ gcmTag key nonce pt).length <
      AESGCMNonceSize + AESGCMTagSize) := by
    simp only [List.length_append, htag, h]
    omega
  simp only [Decrypt]
  rw [show nonce ++ pt ++ gcmTag key nonce pt =
      nonce ++ (pt ++ gcmTag key nonce pt) from List.append_assoc ..]
  rw [List.append_assoc] at hnotlt
  rw [if_neg hnotlt]
  rw [List.take_left' h, List.drop_left' h]
  have hrest : (pt ++ gcmTag key nonce pt).length - AESGCMTagSize = pt.length := by
    simp [List.length_append, htag]
  rw [hrest, List.take_left, List.drop_left, if_pos rfl]

/-! ## Helper lemmas: collection map operations -/

theorem mapGet_mapInsert_self (sat : Satellite) :
    ∀ c : Collection, mapGet sat.Name (mapInsert sat c) = some sat
  | [] => by simp [mapInsert, mapGet]
  | (k, v) :: rest => by
    by_cases h1 : sat.Name < k
    · simp [mapInsert, h1, mapGet]
    · by_cases h2 : sat.Name = k
      · simp [mapInsert, h1, h2, mapGet]
      · simp [mapInsert, h1, h2, mapGet, Ne.symm h2,
          mapGet_mapInsert_self sat rest]

theorem mapGet_mapInsert_ne (sat : Satellite) (other : String)
    (hne : other ≠ sat.Name) :
    ∀ c : Collection, mapGet other (mapInsert sat c) = mapGet other c
  | [] => by
    have hne' : sat.Name ≠ other := fun h => hne h.symm
    simp [mapInsert, mapGet, hne']
  | (k, v) :: rest => by
    have hne' : sat.Name ≠ other := fun h => hne h.symm
    by_cases h1 : sat.Name < k
    · simp [mapInsert, h1, mapGet, hne']
    · by_cases h2 : sat.Name = k
      · subst h2
        simp [mapInsert, h1, mapGet, hne']
      · simp [mapInsert, h1, h2, mapGet,
          mapGet_mapInsert_ne sat other hne rest]

theorem mem_mapInsert (sat : Satellite) :
    ∀ (c : Collection) (x : String × Satellite), x ∈ mapInsert sat c →
      x.1 = sat.Name ∨ x ∈ c
  | [], x, hx => by
    simp [mapInsert] at hx
    subst hx; exact Or.inl rfl
  | (k, v) :: rest, x, hx => by
    by_cases h1 : sat.Name < k
    · simp only [mapInsert, if_pos h1, List.mem_cons] at hx
      rcases hx with h | h | h
      · exact Or.inl (by rw [h])
      · exact Or.inr (by simp [h])
      · exact Or.inr (by simp [h])
    · by_cases h2 : sat.Name = k
      · simp only [mapInsert, if_neg h1, if_pos h2, List.mem_cons] at hx
        rcases hx with h | h
        · exact Or.inl (by rw [h])
        · exact Or.inr (by simp [h])
      · simp only [mapInsert, if_neg h1, if_neg h2, List.mem_cons] at hx
        rcases hx with h | h
        · exact Or.inr (by simp [h])
        · rcases mem_mapInsert sat rest x h with h3 | h3
          · exact Or.inl h3
          · exact Or.inr (List.mem_cons_of_mem _ h3)

theorem ltAll_iff (k : String) (c : Collection) :
    ltAll k c = true ↔ ∀ x ∈ c, k < x.1 := by
  simp [ltAll, List.all_eq_true]

theorem ltAll_mapInsert (k : String) (sat : Satellite) (c : Collection)
    (h : k < sat.Name) (hc : ltAll k c = true) :
    ltAll k (mapInsert sat c) = true := by
  rw [ltAll_iff] at hc ⊢
  intro x hx
  rcases mem_mapInsert sat c x hx with h1 | h1
  · rw [h1]; exact h
  · exact hc x h1

theorem sortedKeys_mapInsert (sat : Satellite) :
    ∀ c : Collection, sortedKeys c = true → sortedKeys (mapInsert sat c) = true
  | [], _ => by simp [mapInsert, sortedKeys, ltAll]
  | (k, v) :: rest, h => by
    rw [sortedKeys, Bool.and_eq_true] at h
    obtain ⟨hlt, hs⟩ := h
    by_cases h1 : sat.Name < k
    · rw [mapInsert, if_pos h1]
      rw [sortedKeys, Bool.and_eq_true]
      refine ⟨?_, by rw [sortedKeys, Bool.and_eq_true]; exact ⟨hlt, hs⟩⟩
      rw [ltAll_iff]
      intro x hx
      rcases List.mem_cons.mp hx with h2 | h2
      · rw [h2]; exact h1
      · exact lt_trans h1 ((ltAll_iff k rest).mp hlt x h2)
    · by_cases h2 : sat.Name = k
      · rw [mapInsert, if_neg h1, if_pos h2]
        rw [sortedKeys, Bool.and_eq_true]
        exact ⟨by rw [h2]; exact hlt, hs⟩
      · have h3 : k < sat.Name := by
          rcases lt_trichotomy sat.Name k with h4 | h4 | h4
          · exact absurd h4 h1
          · exact absurd h4 h2
          · exact h4
        rw [mapInsert, if_neg h1, if_neg h2]
        rw [sortedKeys, Bool.and_eq_true]
        exact ⟨ltAll_mapInsert k sat rest h3 hlt,
          sortedKeys_mapInsert sat rest hs⟩

theorem keys_nodup_of_sorted :
    ∀ c : Collection, sortedKeys c = true → (keys c).Nodup
  | [], _ => List.nodup_nil
  | (k, v) :: rest, h => by
    rw [sortedKeys, Bool.and_eq_true] at h
    obtain ⟨hlt, hs⟩ := h
    rw [keys, List.map_cons, List.nodup_cons]
    constructor
    · intro hmem
      rcases List.mem_map.mp hmem with ⟨x, hx, hx2⟩
      have := (ltAll_iff k rest).mp hlt x hx
      rw [hx2] at this
      exact lt_irrefl k this
    · exact keys_nodup_of_sorted rest hs

/-! ## Claim theorems -/

/-- C1: the claim says that after a load with no persisted file and a
non-empty passphrase the store is unlocked, the collection empty and the
session key unset.  Evaluating the code at that scenario: the collection
is empty and the session key unset and the passphrase flag is set, but
`IsUnlocked` returns false (it also requires a non-empty session key), so
a freshly initialised store is locked and every data command fails — the
spec describes the intent, the code is a slip. -/
theorem C1_fresh_store_eval :
    (load ⟨none, true, .ok "correct-horse"⟩ ⟨[], false, []⟩).err = none ∧
    (load ⟨none, true, .ok "correct-horse"⟩
        ⟨[], false, []⟩).state.satellitesData = [] ∧
    (load ⟨none, true, .ok "correct-horse"⟩
        ⟨[], false, []⟩).state.sessionKey = [] ∧
    (load ⟨none, true, .ok "correct-horse"⟩
        ⟨[], false, []⟩).state.passphraseProvided = true ∧
    IsUnlocked (load ⟨none, true, .ok "correct-horse"⟩
        ⟨[], false, []⟩).state = false := by
  decide

/-- C6: a persisted file shorter than the salt+nonce overhead is rejected
with the too-short corruption error, and no key derivation or decryption
is attempted (the crypto event trace of the load is empty). -/
theorem C6_short_file_rejected (env : LoadEnv) (st : DSState)
    (bytes : List Nat) (p : String)
    (hf : env.file = some bytes) (hr : env.readOk = true)
    (hp : env.pass = .ok p) (hne : p ≠ "")
    (hlen : bytes.length < Argon2SaltSize + AESGCMNonceSize) :
    (load env st).err = some .corruptShort ∧ (load env st).events = [] := by
  rcases env with ⟨file, readOk, pass⟩
  simp only at hf hp hr
  subst hf hp hr
  simp [load, hne, hlen]

/-- C6 witness: a 5-byte file is rejected as too short with no crypto
calls. -/
theorem C6_witness :
    ((some ([0, 0, 0, 0, 0] : List Nat) = some [0, 0, 0, 0, 0]) ∧
      (true = true) ∧
      ((Except.ok "p" : Except String String) = .ok "p") ∧
      ("p" ≠ "") ∧
      ([0, 0, 0, 0, 0] : List Nat).length <
        Argon2SaltSize + AESGCMNonceSize) ∧
    (load ⟨some [0, 0, 0, 0, 0], true, .ok "p"⟩ ⟨[], false, []⟩).err =
        some .corruptShort ∧
    (load ⟨some [0, 0, 0, 0, 5], true, .ok "p"⟩ ⟨[], false, []⟩).events = [] :=
  ⟨⟨rfl, rfl, rfl, by decide, by decide⟩,
    (C6_short_file_rejected ⟨some [0, 0, 0, 0, 0], true, .ok "p"⟩
      ⟨[], false, []⟩ [0, 0, 0, 0, 0] "p" rfl rfl rfl (by decide)
      (by decide)).1,
    by decide⟩

/-- C7: getAll, put and delete all fail with the locked error when the
store is not unlocked; after a successful unlock getAll and put succeed,
and delete succeeds when the name is present. -/
theorem C7_locked_gating (st : DSState) (sat : Satellite) (name : String) :
    (IsUnlocked st = false →
      GetSatellites st = .error .locked ∧
      AddSatellite sat st = (st, some .locked) ∧
      DeleteSatellite name st = (st, some .locked)) ∧
    (IsUnlocked st = true →
      GetSatellites st = .ok st.satellitesData ∧
      (AddSatellite sat st).2 = none ∧
      ((mapGet name st.satellitesData).isSome = true →
        (DeleteSatellite name st).2 = none)) := by
  constructor
  · intro h
    simp [GetSatellites, AddSatellite, DeleteSatellite, h]
  · intro h
    refine ⟨by simp [GetSatellites, h], by simp [AddSatellite, h], ?_⟩
    intro hm
    have hnone : (mapGet name st.satellitesData).isNone = false := by
      rcases hmm : mapGet name st.satellitesData with _ | v
      · rw [hmm] at hm; simp at hm
      · simp
    simp [DeleteSatellite, h, hnone]

/-- C7 witness: gating evaluated at a locked and at an unlocked concrete
store. -/
theorem C7_witness :
    (GetSatellites ⟨[], false, []⟩ = .error .locked ∧
      AddSatellite ⟨"SAT-1", "LEO", 0, 0, 0, "", "", 0, 0, false, "", "",
        "ESA", "", "Active"⟩ ⟨[], false, []⟩ = (⟨[], false, []⟩, some .locked) ∧
      DeleteSatellite "SAT-1" ⟨[], false, []⟩ =
        (⟨[], false, []⟩, some .locked)) ∧
    (GetSatellites ⟨[("SAT-1", ⟨"SAT-1", "LEO", 0, 0, 0, "", "", 0, 0, false,
        "", "", "ESA", "", "Active"⟩)], true, [7]⟩ =
      .ok [("SAT-1", ⟨"SAT-1", "LEO", 0, 0, 0, "", "", 0, 0, false, "", "",
        "ESA", "", "Active"⟩)] ∧
      (AddSatellite ⟨"SAT-1", "LEO", 0, 0, 0, "", "", 0, 0, false, "", "",
        "ESA", "", "Active"⟩ ⟨[("SAT-1", ⟨"SAT-1", "LEO", 0, 0, 0, "", "", 0,
        0, false, "", "", "ESA", "", "Active"⟩)], true, [7]⟩).2 = none ∧
      ((mapGet "SAT-1" [("SAT-1", ⟨"SAT-1", "LEO", 0, 0, 0, "", "", 0, 0,
        false, "", "", "ESA", "", "Active"⟩)]).isSome = true →
        (DeleteSatellite "SAT-1" ⟨[("SAT-1", ⟨"SAT-1", "LEO", 0, 0, 0, "",
          "", 0, 0, false, "", "", "ESA", "", "Active"⟩)], true, [7]⟩).2 =
          none)) :=
  ⟨(C7_locked_gating ⟨[], false, []⟩ ⟨"SAT-1", "LEO", 0, 0, 0, "", "", 0, 0,
      false, "", "", "ESA", "", "Active"⟩ "SAT-1").1 (by decide),
   (C7_locked_gating ⟨[("SAT-1", ⟨"SAT-1", "LEO", 0, 0, 0, "", "", 0, 0,
      false, "", "", "ESA", "", "Active"⟩)], true, [7]⟩ ⟨"SAT-1", "LEO", 0,
      0, 0, "", "", 0, 0, false, "", "", "ESA", "", "Active"⟩ "SAT-1").2
      (by decide)⟩

/-- C8: on an unlocked store, deleting an absent name fails with the
not-found error and leaves the whole state (hence the collection)
unchanged. -/
theorem C8_delete_absent (st : DSState) (name : String)
    (h : IsUnlocked st = true)
    (habs : mapGet name st.satellitesData = none) :
    DeleteSatellite name st = (st, some (.notFound name)) := by
  simp [DeleteSatellite, h, habs]

/-- C8 witness: deleting a missing name from a concrete unlocked store. -/
theorem C8_witness :
    (IsUnlocked ⟨[], true, [7]⟩ = true ∧
      mapGet "GHOST" ([] : Collection) = none) ∧
    DeleteSatellite "GHOST" ⟨[], true, [7]⟩ =
      (⟨[], true, [7]⟩, some (.notFound "GHOST")) :=
  ⟨⟨by decide, by decide⟩,
    C8_delete_absent ⟨[], true, [7]⟩ "GHOST" (by decide) (by decide)⟩

/-- C9: on an unlocked store, put succeeds, stores the record under its
name (overwriting any previous record with that name), leaves every other
name's lookup unchanged, and preserves the canonical sorted form (hence
key uniqueness). -/
theorem C9_put_upsert (st : DSState) (sat : Satellite)
    (h : IsUnlocked st = true) :
    (AddSatellite sat st).2 = none ∧
    mapGet sat.Name (AddSatellite sat st).1.satellitesData = some sat ∧
    (∀ other : String, other ≠ sat.Name →
      mapGet other (AddSatellite sat st).1.satellitesData =
        mapGet other st.satellitesData) ∧
    (sortedKeys st.satellitesData = true →
      sortedKeys (AddSatellite sat st).1.satellitesData = true ∧
      (keys (AddSatellite sat st).1.satellitesData).Nodup) := by
  have hred : AddSatellite sat st =
      ({ st with satellitesData := mapInsert sat st.satellitesData }, none) := by
    simp [AddSatellite, h]
  rw [hred]
  refine ⟨rfl, mapGet_mapInsert_self sat st.satellitesData, ?_, ?_⟩
  · intro other hne
    exact mapGet_mapInsert_ne sat other hne st.satellitesData
  · intro hsorted
    have hs2 := sortedKeys_mapInsert sat st.satellitesData hsorted
    exact ⟨hs2, keys_nodup_of_sorted _ hs2⟩

/-- C9 witness: upsert into a concrete unlocked one-record store. -/
theorem C9_witness :
    IsUnlocked ⟨[("SAT-1", ⟨"SAT-1", "LEO", 0, 0, 0, "", "", 0, 0, false,
      "", "", "ESA", "", "Active"⟩)], true, [7]⟩ = true ∧
    (AddSatellite ⟨"SAT-1", "GEO", 1, 0, 0, "", "", 0, 0, true, "", "",
      "NASA", "", "Active"⟩ ⟨[("SAT-1", ⟨"SAT-1", "LEO", 0, 0, 0, "", "", 0,
      0, false, "", "", "ESA", "", "Active"⟩)], true, [7]⟩).2 = none ∧
    mapGet "SAT-1" (AddSatellite ⟨"SAT-1", "GEO", 1, 0, 0, "", "", 0, 0,
      true, "", "", "NASA", "", "Active"⟩ ⟨[("SAT-1", ⟨"SAT-1", "LEO", 0, 0,
      0, "", "", 0, 0, false, "", "", "ESA", "", "Active"⟩)], true,
      [7]⟩).1.satellitesData =
      some ⟨"SAT-1", "GEO", 1, 0, 0, "", "", 0, 0, true, "", "", "NASA", "",
        "Active"⟩ :=
  ⟨by decide,
    (C9_put_upsert ⟨[("SAT-1", ⟨"SAT-1", "LEO", 0, 0, 0, "", "", 0, 0,
      false, "", "", "ESA", "", "Active"⟩)], true, [7]⟩ ⟨"SAT-1", "GEO", 1,
      0, 0, "", "", 0, 0, true, "", "", "NASA", "", "Active"⟩ (by decide)).1,
    (C9_put_upsert ⟨[("SAT-1", ⟨"SAT-1", "LEO", 0, 0, 0, "", "", 0, 0,
      false, "", "", "ESA", "", "Active"⟩)], true, [7]⟩ ⟨"SAT-1", "GEO", 1,
      0, 0, "", "", 0, 0, true, "", "", "NASA", "", "Active"⟩
      (by decide)).2.1⟩

theorem load_err_or_locked (env : LoadEnv) (st : DSState) :
    (load env st).err = none ∨
    (IsUnlocked (load env st).state = false ∧
      (load env st).state.sessionKey = []) := by
  rcases env with ⟨file, readOk, pass⟩
  rcases pass with msg | p
  · rcases file with _ | bytes <;> simp [load, IsUnlocked]
  · rcases file with _ | bytes
    · by_cases hp : p = "" <;> simp [load, hp, IsUnlocked]
    · by_cases hp : p = ""
      · simp [load, hp, IsUnlocked]
      · rcases readOk with _ | _
        · simp [load, hp, IsUnlocked]
        · by_cases hlen : bytes.length < Argon2SaltSize + AESGCMNonceSize
          · simp [load, hp, hlen, IsUnlocked]
          · rcases hd : Decrypt (bytes.drop Argon2SaltSize)
                (argonKey p (bytes.take Argon2SaltSize)) with e | pt
            · right
              simp [load, hp, hlen, DeriveKeyWithArgon2id, hd, IsUnlocked]
            · rcases hu : unmarshal pt with _ | m
              · right
                simp [load, hp, hlen, DeriveKeyWithArgon2id, hd, hu,
                  IsUnlocked]
              · left
                simp [load, hp, hlen, DeriveKeyWithArgon2id, hd, hu]

/-- C10: whenever the load protocol returns an error — passphrase
acquisition failure or empty passphrase with an existing file, file read
failure, truncated file, key derivation failure, decryption failure, or
deserialization failure — the store is left locked with the session key
cleared, so isUnlocked() is false after every failing load. -/
theorem C10_failing_load_locked (env : LoadEnv) (st : DSState)
    (h : (load env st).err ≠ none) :
    IsUnlocked (load env st).state = false ∧
    (load env st).state.sessionKey = [] := by
  rcases load_err_or_locked env st with h1 | h1
  · exact absurd h1 h
  · exact h1

/-- C10 witness: a concrete failing load (empty passphrase on an existing
file, starting from a state holding a stale session key) leaves the store
locked with the session key cleared. -/
theorem C10_witness :
    (load ⟨some [1, 2, 3], true, .ok ""⟩ ⟨[], true, [7]⟩).err ≠ none ∧
    (IsUnlocked (load ⟨some [1, 2, 3], true, .ok ""⟩ ⟨[], true, [7]⟩).state =
      false ∧
    (load ⟨some [1, 2, 3], true, .ok ""⟩
      ⟨[], true, [7]⟩).state.sessionKey = []) :=
  ⟨by decide,
    C10_failing_load_locked ⟨some [1, 2, 3], true, .ok ""⟩ ⟨[], true, [7]⟩
      (by decide)⟩

/-- C3 counterexample: a structurally too-short file (5 bytes) makes Init
propagate the corruption error instead of downgrading it — its message
contains neither of the substrings Init's error filter looks for, so the
claim that a CorruptFileError during the initial load is non-fatal to
startup is false at this input. -/
theorem C3_counterexample :
    (Init ⟨some [0, 0, 0, 0, 0], true, .ok "p"⟩ ⟨[], false, []⟩).err =
      some .corruptShort := by decide

/-- C3 amended: only the deserialization flavour of file corruption is
non-fatal to Init (its message contains the substring the filter looks
for, so Init downgrades it and leaves the store locked); the too-short
flavour propagates out of Init as a fatal error. -/
theorem C3_corrupt_split (env : LoadEnv) (st : DSState) :
    ((load env st).err = some .corruptShort →
      (Init env st).err = some .corruptShort) ∧
    ((load env st).err = some .unmarshalFailed →
      (Init env st).err = none ∧ IsUnlocked (Init env st).state = false) := by
  constructor
  · intro h
    have hmsg : (strContains (loadErrorMsg .corruptShort) kwPassphrase ||
        strContains (loadErrorMsg .corruptShort) kwDecrypt) = false := by
      decide
    simp only [Init, h]
    simp [hmsg]
  · intro h
    have hmsg : (strContains (loadErrorMsg .unmarshalFailed) kwPassphrase ||
        strContains (loadErrorMsg .unmarshalFailed) kwDecrypt) = true := by
      decide
    simp only [Init, h]
    simp [hmsg, IsUnlocked]

/-- C3 witness: both amended branches evaluated at concrete inputs — a
5-byte file propagates fatally; a file that decrypts to an invalid
payload (empty plaintext) is downgraded and leaves the store locked. -/
theorem C3_witness :
    ((load ⟨some [0, 0, 0, 0, 0], true, .ok "p"⟩ ⟨[], false, []⟩).err =
        some .corruptShort ∧
      (Init ⟨some [0, 0, 0, 0, 0], true, .ok "p"⟩ ⟨[], false, []⟩).err =
        some .corruptShort) ∧
    ((load ⟨some (List.replicate 16 0 ++ List.replicate 12 0 ++
        gcmTag (argonKey "p" (List.replicate 16 0)) (List.replicate 12 0)
          []), true, .ok "p"⟩ ⟨[], false, []⟩).err = some .unmarshalFailed ∧
      ((Init ⟨some (List.replicate 16 0 ++ List.replicate 12 0 ++
        gcmTag (argonKey "p" (List.replicate 16 0)) (List.replicate 12 0)
          []), true, .ok "p"⟩ ⟨[], false, []⟩).err = none ∧
      IsUnlocked (Init ⟨some (List.replicate 16 0 ++ List.replicate 12 0 ++
        gcmTag (argonKey "p" (List.replicate 16 0)) (List.replicate 12 0)
          []), true, .ok "p"⟩ ⟨[], false, []⟩).state = false)) :=
  ⟨⟨by decide,
    (C3_corrupt_split ⟨some [0, 0, 0, 0, 0], true, .ok "p"⟩
      ⟨[], false, []⟩).1 (by decide)⟩,
   ⟨by decide,
    (C3_corrupt_split ⟨some (List.replicate 16 0 ++ List.replicate 12 0 ++
        gcmTag (argonKey "p" (List.replicate 16 0)) (List.replicate 12 0)
          []), true, .ok "p"⟩ ⟨[], false, []⟩).2 (by decide)⟩⟩

/-- C4: if the atomic rename step of Save fails, Save fails with the
persist error, removes the temporary file, and the target file is exactly
its pre-save content — never truncated or partially overwritten. -/
theorem C4_rename_failure (env : SaveEnv) (st : DSState) (fs : FS)
    (hp : st.passphraseProvided = true) (he : env.envPass ≠ "")
    (hs : env.saltOk = true) (hw : env.writeOk = true)
    (hr : env.renameOk = false) :
    (Save env st fs).err = some .renamePersist ∧
    (Save env st fs).fs.target = fs.target ∧
    (Save env st fs).fs.temp = none := by
  rcases env with ⟨retryPass, envPass, repromptPass, saltOk, salt, nonce,
    writeOk, renameOk⟩
  simp only at he hs hw hr
  subst hs hw hr
  simp [Save, hp, he, DeriveKeyWithArgon2id, Encrypt]

/-- C4 witness: a concrete save whose rename step fails leaves the old
target bytes intact and no temporary file. -/
theorem C4_witness :
    ((⟨[], true, [7]⟩ : DSState).passphraseProvided = true ∧
      ("pw" : String) ≠ "" ∧ (true = true) ∧ (true = true) ∧
      (false = false)) ∧
    (Save ⟨.ok "", "pw", .ok "", true, List.replicate 16 1,
        List.replicate 12 2, true, false⟩ ⟨[], true, [7]⟩
        ⟨some [9, 9, 9], none⟩).err = some .renamePersist ∧
    (Save ⟨.ok "", "pw", .ok "", true, List.replicate 16 1,
        List.replicate 12 2, true, false⟩ ⟨[], true, [7]⟩
        ⟨some [9, 9, 9], none⟩).fs.target = some [9, 9, 9] ∧
    (Save ⟨.ok "", "pw", .ok "", true, List.replicate 16 1,
        List.replicate 12 2, true, false⟩ ⟨[], true, [7]⟩
        ⟨some [9, 9, 9], none⟩).fs.temp = none :=
  ⟨⟨rfl, by decide, rfl, rfl, rfl⟩,
    C4_rename_failure ⟨.ok "", "pw", .ok "", true, List.replicate 16 1,
      List.replicate 12 2, true, false⟩ ⟨[], true, [7]⟩
      ⟨some [9, 9, 9], none⟩ rfl (by decide) rfl rfl rfl⟩

theorem save_ok_spec (env : SaveEnv) (st : DSState) (fs : FS)
    (hp : st.passphraseProvided = true) (he : env.envPass ≠ "")
    (hs : env.saltOk = true) (hw : env.writeOk = true)
    (hr : env.renameOk = true) :
    (Save env st fs).err = none ∧
    (Save env st fs).state.sessionKey = argonKey env.envPass env.salt ∧
    (Save env st fs).events =
      [.derive env.envPass env.salt,
       .encryptCall (marshal st.satellitesData)
         (argonKey env.envPass env.salt) env.nonce] ∧
    (Save env st fs).fs.target =
      some (env.salt ++ (env.nonce ++ marshal st.satellitesData ++
        gcmTag (argonKey env.envPass env.salt) env.nonce
          (marshal st.satellitesData))) := by
  rcases env with ⟨retryPass, envPass, repromptPass, saltOk, salt, nonce,
    writeOk, renameOk⟩
  simp only at he hs hw hr
  subst hs hw hr
  simp [Save, hp, he, DeriveKeyWithArgon2id, Encrypt]

/-- C5: a successful Save derives its key from the passphrase and the
salt freshly drawn by this very call (recorded in the crypto event
trace), for any prior session key whatsoever; the encryption uses that
key, the file written is that salt followed by that cipher output, and
the in-memory session key afterwards is exactly the key just used. -/
theorem C5_fresh_salt_key (env : SaveEnv) (st : DSState) (fs : FS)
    (hp : st.passphraseProvided = true) (he : env.envPass ≠ "")
    (hs : env.saltOk = true) (hw : env.writeOk = true)
    (hr : env.renameOk = true) :
    (Save env st fs).err = none ∧
    (Save env st fs).state.sessionKey = argonKey env.envPass env.salt ∧
    (Save env st fs).events =
      [.derive env.envPass env.salt,
       .encryptCall (marshal st.satellitesData)
         (argonKey env.envPass env.salt) env.nonce] ∧
    (Save env st fs).fs.target =
      some (env.salt ++ (env.nonce ++ marshal st.satellitesData ++
        gcmTag (argonKey env.envPass env.salt) env.nonce
          (marshal st.satellitesData))) :=
  save_ok_spec env st fs hp he hs hw hr

/-- C5 witness: a concrete successful save with a pre-existing (stale)
session key ends with the freshly derived key and writes
salt-then-cipher-output. -/
theorem C5_witness :
    ((⟨[], true, [42]⟩ : DSState).passphraseProvided = true ∧
      ("pw" : String) ≠ "") ∧
    (Save ⟨.ok "", "pw", .ok "", true, List.replicate 16 1,
        List.replicate 12 2, true, true⟩ ⟨[], true, [42]⟩
        ⟨none, none⟩).state.sessionKey =
      argonKey "pw" (List.replicate 16 1) ∧
    (Save ⟨.ok "", "pw", .ok "", true, List.replicate 16 1,
        List.replicate 12 2, true, true⟩ ⟨[], true, [42]⟩
        ⟨none, none⟩).fs.target =
      some (List.replicate 16 1 ++ (List.replicate 12 2 ++ marshal [] ++
        gcmTag (argonKey "pw" (List.replicate 16 1)) (List.replicate 12 2)
          (marshal []))) :=
  ⟨⟨rfl, by decide⟩,
    (C5_fresh_salt_key ⟨.ok "", "pw", .ok "", true, List.replicate 16 1,
      List.replicate 12 2, true, true⟩ ⟨[], true, [42]⟩ ⟨none, none⟩ rfl
      (by decide) rfl rfl rfl).2.1,
    (C5_fresh_salt_key ⟨.ok "", "pw", .ok "", true, List.replicate 16 1,
      List.replicate 12 2, true, true⟩ ⟨[], true, [42]⟩ ⟨none, none⟩ rfl
      (by decide) rfl rfl rfl).2.2.2⟩

theorem load_saved (P : String) (hP : P ≠ "") (salt nonce : List Nat)
    (hsl : salt.length = Argon2SaltSize)
    (hnl : nonce.length = AESGCMNonceSize)
    (c : Collection) (st2 : DSState) :
    (load ⟨some (salt ++ (nonce ++ marshal c ++
        gcmTag (argonKey P salt) nonce (marshal c))), true, .ok P⟩ st2).err =
      none ∧
    (load ⟨some (salt ++ (nonce ++ marshal c ++
        gcmTag (argonKey P salt) nonce (marshal c))), true, .ok P⟩
        st2).state.satellitesData = c := by
  have htag := gcmTag_length (argonKey P salt) nonce (marshal c)
  have hnotlt : ¬ ((salt ++ (nonce ++ marshal c ++
      gcmTag (argonKey P salt) nonce (marshal c))).length <
      Argon2SaltSize + AESGCMNonceSize) := by
    simp only [List.length_append, hsl, hnl, htag]
    omega
  have htake : (salt ++ (nonce ++ marshal c ++
      gcmTag (argonKey P salt) nonce (marshal c))).take Argon2SaltSize =
      salt := List.take_left' hsl
  have hdrop : (salt ++ (nonce ++ marshal c ++
      gcmTag (argonKey P salt) nonce (marshal c))).drop Argon2SaltSize =
      nonce ++ marshal c ++ gcmTag (argonKey P salt) nonce (marshal c) :=
    List.drop_left' hsl
  have hdec := decrypt_encrypt (marshal c) (argonKey P salt) nonce hnl
  have hum := unmarshal_marshal c
  simp only [load, if_neg hP, if_neg hnotlt, htake, hdrop,
    DeriveKeyWithArgon2id, hdec, hum]
  simp

/-- C2: saving any canonical collection under any passphrase, with
whatever salt and nonce the randomness supplies for that save, then
loading the produced file with the same passphrase, succeeds and
reproduces exactly the saved records. -/
theorem C2_save_load_roundtrip (env : SaveEnv) (st : DSState) (fs : FS)
    (st2 : DSState)
    (_hsorted : sortedKeys st.satellitesData = true)
    (hp : st.passphraseProvided = true) (he : env.envPass ≠ "")
    (hs : env.saltOk = true) (hw : env.writeOk = true)
    (hr : env.renameOk = true)
    (hsl : env.salt.length = Argon2SaltSize)
    (hnl : env.nonce.length = AESGCMNonceSize) :
    (Save env st fs).err = none ∧
    ∀ bytes, (Save env st fs).fs.target = some bytes →
      (load ⟨some bytes, true, .ok env.envPass⟩ st2).err = none ∧
      (load ⟨some bytes, true, .ok env.envPass⟩ st2).state.satellitesData =
        st.satellitesData := by
  obtain ⟨herr, hkey, hev, htarget⟩ := save_ok_spec env st fs hp he hs hw hr
  refine ⟨herr, ?_⟩
  intro bytes hbytes
  rw [htarget] at hbytes
  injection hbytes with hbytes
  subst hbytes
  exact load_saved env.envPass he env.salt env.nonce hsl hnl
    st.satellitesData st2

/-- C2 witness: the end-to-end scenario — one record saved under
passphrase "correct-horse" with concrete salt and nonce, reloaded with
the same passphrase, yields exactly the saved collection. -/
theorem C2_witness :
    (sortedKeys [("SAT-1", ⟨"SAT-1", "LEO", 0, 0, 0, "", "", 0, 0, false,
        "", "", "ESA", "", "Active"⟩)] = true ∧
      ("correct-horse" : String) ≠ "" ∧
      (List.replicate 16 3).length = Argon2SaltSize ∧
      (List.replicate 12 5).length = AESGCMNonceSize) ∧
    ((load ⟨some (List.replicate 16 3 ++ (List.replicate 12 5 ++
        marshal [("SAT-1", ⟨"SAT-1", "LEO", 0, 0, 0, "", "", 0, 0, false,
          "", "", "ESA", "", "Active"⟩)] ++
        gcmTag (argonKey "correct-horse" (List.replicate 16 3))
          (List.replicate 12 5)
          (marshal [("SAT-1", ⟨"SAT-1", "LEO", 0, 0, 0, "", "", 0, 0, false,
            "", "", "ESA", "", "Active"⟩)]))), true, .ok "correct-horse"⟩
        ⟨[], false, []⟩).err = none ∧
      (load ⟨some (List.replicate 16 3 ++ (List.replicate 12 5 ++
        marshal [("SAT-1", ⟨"SAT-1", "LEO", 0, 0, 0, "", "", 0, 0, false,
          "", "", "ESA", "", "Active"⟩)] ++
        gcmTag (argonKey "correct-horse" (List.replicate 16 3))
          (List.replicate 12 5)
          (marshal [("SAT-1", ⟨"SAT-1", "LEO", 0, 0, 0, "", "", 0, 0, false,
            "", "", "ESA", "", "Active"⟩)]))), true, .ok "correct-horse"⟩
        ⟨[], false, []⟩).state.satellitesData =
        [("SAT-1", ⟨"SAT-1", "LEO", 0, 0, 0, "", "", 0, 0, false, "", "",
          "ESA", "", "Active"⟩)]) :=
  ⟨⟨by decide, by decide, by decide, by decide⟩,
    (C2_save_load_roundtrip
      ⟨.ok "", "correct-horse", .ok "", true, List.replicate 16 3,
        List.replicate 12 5, true, true⟩
      ⟨[("SAT-1", ⟨"SAT-1", "LEO", 0, 0, 0, "", "", 0, 0, false, "", "",
        "ESA", "", "Active"⟩)], true, []⟩
      ⟨none, none⟩ ⟨[], false, []⟩ (by decide) rfl (by decide) rfl rfl rfl
      (by decide) (by decide)).2
      (List.replicate 16 3 ++ (List.replicate 12 5 ++
        marshal [("SAT-1", ⟨"SAT-1", "LEO", 0, 0, 0, "", "", 0, 0, false,
          "", "", "ESA", "", "Active"⟩)] ++
        gcmTag (argonKey "correct-horse" (List.replicate 16 3))
          (List.replicate 12 5)
          (marshal [("SAT-1", ⟨"SAT-1", "LEO", 0, 0, 0, "", "", 0, 0, false,
            "", "", "ESA", "", "Active"⟩)])))
      (by decide)⟩
